import Mathlib

/-!
Shallow embedding of the Rust template files of the `standards` repository
(`src/skills/coding-standards/rust/templates/`):
`lib-template.rs` (the `MyLib` library with its `LibError` enum),
`main-template.rs` (the CLI `App`), and `test-template.rs`
(the `Calculator` and `async_operation`).

Modelling conventions:
* Rust `Result<T, E>` becomes `Except E T`.
* `std::io::Error` is opaque to the library; it is modelled as a structure
  wrapping its display message.
* File and console I/O is modelled by values: `App.run` takes the result of
  reading the input file and returns the write event it would perform
  (destination plus the bytes written) instead of performing it; `println!`
  appends a newline to the data it writes, `std::fs::write` writes the data
  exactly.
* Rust `i32` arithmetic is modelled on `ℤ` with two's-complement wrapping
  (`i32Wrap`), the release-mode semantics of overflow.
* `Calculator` computes on `f64`; its operations are modelled on `ℚ` with
  `f64::round`'s rounding rule (half away from zero).  This idealisation is
  faithful to the branch structure (the `b == 0.0` test) used by the
  error-handling claims; claims about exact `f64` values are out of scope.
* `str::to_uppercase` is modelled by per-character upper-casing
  (`Char.toUpper`), which agrees with it on ASCII input.
* `tokio::time::sleep` only delays; the pure model drops it.
-/

deriving instance DecidableEq for Except

/-- Stand-in for `std::io::Error`, opaque to the library: only its display
message is observable here. -/
structure IoError where
  msg : String
deriving DecidableEq, Repr

/-- `LibError` from `lib-template.rs` lines 13-23: the library's single error
enum with its three variants `InvalidInput(String)`, `OperationFailed(String)`
and `Io(std::io::Error)`. -/
inductive LibError where
  | invalidInput (s : String)
  | operationFailed (s : String)
  | ioWrapped (e : IoError)
deriving DecidableEq, Repr

/-- `MyLib` from `lib-template.rs` lines 38-41: wraps a configuration
string.  The field accessor `MyLib.config` plays the role of the getter
`MyLib::config` (lines 92-94), which returns the stored string unchanged. -/
structure MyLib where
  config : String
deriving DecidableEq, Repr

/-- `MyLib::new` (`lib-template.rs` lines 61-67): errors with
`InvalidInput("config cannot be empty")` on the empty config string,
otherwise stores the config. -/
def MyLib.new (config : String) : Except LibError MyLib :=
  if config.isEmpty then
    .error (LibError.invalidInput "config cannot be empty")
  else
    .ok { config := config }

/-- `MyLib::process` (`lib-template.rs` lines 84-89): errors with
`InvalidInput("input cannot be empty")` on empty input, otherwise returns
`format!("PROCESSED: {}", input)`. -/
def MyLib.process (_lib : MyLib) (input : String) : Except LibError String :=
  if input.isEmpty then
    .error (LibError.invalidInput "input cannot be empty")
  else
    .ok ("PROCESSED: " ++ input)

/-- `MyLib::process` takes `&self`: the receiver is unchanged by the call.
This step form returns the call's result together with the (unchanged)
receiver, making that explicit. -/
def MyLib.processStep (lib : MyLib) (input : String) :
    Except LibError String × MyLib :=
  (lib.process input, lib)

/-- Trimming surrounding whitespace, as the spec's words describe it: drop
whitespace characters from both ends of the string. -/
def trimSpec (s : String) : String :=
  ⟨((s.data.dropWhile Char.isWhitespace).reverse.dropWhile Char.isWhitespace).reverse⟩

/-- A claim-side rendering of the spec sentence "the MyLib type trims and
echoes strings": on accepted input the result would be the input trimmed of
surrounding whitespace with nothing added.  Compared against `MyLib.process`
(the source) below. -/
def specTrimEcho (input : String) : Except LibError String :=
  if input.isEmpty then
    .error (LibError.invalidInput "input cannot be empty")
  else
    .ok (trimSpec input)

/-- `Calculator` from `test-template.rs` lines 15-18: wraps a precision
(`u32`, modelled as `Nat`). -/
structure Calculator where
  precision : Nat
deriving DecidableEq, Repr

/-- The multiplier `10_f64.powi(self.precision as i32)` computed by every
`Calculator` operation. -/
def Calculator.multiplier (c : Calculator) : ℚ :=
  10 ^ c.precision

/-- `f64::round`: rounds half-way cases away from zero. -/
def roundAway (q : ℚ) : ℤ :=
  if 0 ≤ q then ⌊q + 1 / 2⌋ else ⌈q - 1 / 2⌉

/-- `Calculator::add` (`test-template.rs` lines 25-28):
`((a + b) * multiplier).round() / multiplier`, on the `ℚ` idealisation of
`f64`. -/
def Calculator.add (c : Calculator) (a b : ℚ) : ℚ :=
  (roundAway ((a + b) * c.multiplier) : ℚ) / c.multiplier

/-- `Calculator::subtract` (`test-template.rs` lines 30-32):
`self.add(a, -b)`. -/
def Calculator.subtract (c : Calculator) (a b : ℚ) : ℚ :=
  c.add a (-b)

/-- `Calculator::multiply` (`test-template.rs` lines 34-37):
`((a * b) * multiplier).round() / multiplier`. -/
def Calculator.multiply (c : Calculator) (a b : ℚ) : ℚ :=
  (roundAway (a * b * c.multiplier) : ℚ) / c.multiplier

/-- `Calculator::divide` (`test-template.rs` lines 39-45): errors with
`"Division by zero"` when `b == 0.0`, otherwise
`Ok(((a / b) * multiplier).round() / multiplier)`. -/
def Calculator.divide (c : Calculator) (a b : ℚ) : Except String ℚ :=
  if b = 0 then
    .error "Division by zero"
  else
    .ok ((roundAway (a / b * c.multiplier) : ℚ) / c.multiplier)

/-- Two's-complement wrapping of an integer into the `i32` range, the
release-mode semantics of Rust `i32` overflow. -/
def i32Wrap (n : ℤ) : ℤ :=
  (n + 2 ^ 31) % 2 ^ 32 - 2 ^ 31

/-- `async_operation` from `test-template.rs` lines 49-56: sleeps 10 ms
(dropped in this pure model), then errors with `"Negative value"` on negative
input and otherwise returns `value * 2` (an `i32` product, hence wrapped). -/
def asyncOperation (value : ℤ) : Except String ℤ :=
  if value < 0 then
    .error "Negative value"
  else
    .ok (i32Wrap (value * 2))

/-- The ten concurrent operations of `test_concurrent_operations`
(`test-template.rs` lines 214-230): `async_operation(i)` spawned for
`i in 0..10` and joined in order. -/
def concurrentResults : List (Except String ℤ) :=
  (List.range 10).map fun i => asyncOperation (i : ℤ)

/-- `Args` from `main-template.rs` lines 15-33: the clap-derived CLI
argument set — exactly the four flags `--input` (required `String`),
`--output` (`Option<String>`), `--verbose` (`bool`) and `--config`
(`String`, with a default). -/
structure Args where
  input : String
  output : Option String
  verbose : Bool
  config : String
deriving DecidableEq, Repr

/-- The `default_value = "config.toml"` attribute on `Args.config`
(`main-template.rs` line 31). -/
def Args.configDefault : String :=
  "config.toml"

/-- `Config` from `main-template.rs` lines 36-41. -/
structure Config where
  input : String
  output : Option String
  config_path : String
deriving DecidableEq, Repr

/-- `Config::from_args` (`main-template.rs` lines 43-51): carries `input`,
`output` and `config` over from the parsed arguments. -/
def Config.from_args (args : Args) : Config :=
  { input := args.input
    output := args.output
    config_path := args.config }

/-- `App` from `main-template.rs` lines 54-56. -/
structure App where
  config : Config
deriving DecidableEq, Repr

/-- `App::new` (`main-template.rs` lines 59-61). -/
def App.new (config : Config) : App :=
  { config := config }

/-- Which stage of `App::run` an error came from; `run` attaches the
context strings "Failed to read input file", "Failed to process data" and
"Failed to write output" to these stages. -/
inductive Stage where
  | readInput
  | processData
  | writeOutput
deriving DecidableEq, Repr

/-- A write event of `App::write_output`: destination and exact bytes
handed to it. -/
inductive WriteEvent where
  | toFile (path : String) (data : String)
  | toStdout (data : String)
deriving DecidableEq, Repr

/-- Models `str::to_uppercase` by per-character upper-casing; agrees with
it on ASCII input. -/
def rustToUppercase (s : String) : String :=
  ⟨s.data.map Char.toUpper⟩

/-- `App::process` (`main-template.rs` lines 91-104): returns empty input
unchanged, otherwise the input upper-cased.  Declared with the source's
`Result` type even though no branch errors. -/
def App.process (_app : App) (input : String) : Except String String :=
  if input.isEmpty then
    .ok input
  else
    .ok (rustToUppercase input)

/-- `App::write_output` (`main-template.rs` lines 106-119): with
`Some(path)` it hands `data` to `std::fs::write` exactly; with `None` it
prints via `println!`, which writes `data` followed by a newline. -/
def App.write_output (app : App) (data : String) : WriteEvent :=
  match app.config.output with
  | some path => .toFile path data
  | none => .toStdout (data ++ "\n")

/-- `App::run` (`main-template.rs` lines 64-83), with file reading modelled
by its result (`readResult`): propagates a read failure, then processes,
then performs the write; each failure is tagged with the stage whose
`.context(...)` message `run` would attach. -/
def App.run (app : App) (readResult : Except String String) :
    Except (Stage × String) WriteEvent :=
  match readResult with
  | .error e => .error (Stage.readInput, e)
  | .ok input =>
    match app.process input with
    | .error e => .error (Stage.processData, e)
    | .ok output => .ok (app.write_output output)

/-! ## Claims -/

/-- C1 (counterexample): at the non-empty input `" test "`, `MyLib::process`
returns `Ok("PROCESSED:  test ")`, while the trim-and-echo behaviour the
spec describes would return `Ok("test")`; the two disagree, and the actual
output carries the added tag `"PROCESSED: "`. -/
theorem MyLib.process_not_trim_echo :
    MyLib.process ⟨"config"⟩ " test " = Except.ok "PROCESSED:  test " ∧
    specTrimEcho " test " = Except.ok "test" ∧
    MyLib.process ⟨"config"⟩ " test " ≠ specTrimEcho " test " := by
  decide

/-- C1 (amended): for every `MyLib` instance and every non-empty input,
`process` returns `Ok` of the input with the fixed tag `"PROCESSED: "`
prepended; the input is not trimmed and is otherwise unchanged. -/
theorem MyLib.process_prefixes_input (lib : MyLib) (input : String) (h : input ≠ "") :
    lib.process input = Except.ok ("PROCESSED: " ++ input) := by
  simp [MyLib.process, String.isEmpty_iff, h]

/-- C1 (witness): `MyLib.process_prefixes_input` at the concrete input
`"test"`. -/
theorem MyLib.process_prefixes_input_witness :
    MyLib.process ⟨"config"⟩ "test" = Except.ok ("PROCESSED: " ++ "test") :=
  MyLib.process_prefixes_input ⟨"config"⟩ "test" (by decide)

/-- C3: `MyLib::new` returns `LibError::InvalidInput` if and only if the
config string is empty, and for every non-empty config it returns `Ok` of
the instance storing exactly that config — no validation beyond the
non-empty check. -/
theorem MyLib.new_invalid_iff_empty (cfg : String) :
    (MyLib.new cfg = Except.error (LibError.invalidInput "config cannot be empty") ↔ cfg = "") ∧
    (cfg ≠ "" → MyLib.new cfg = Except.ok ⟨cfg⟩) := by
  constructor
  · constructor
    · intro h
      by_contra hne
      simp [MyLib.new, String.isEmpty_iff, hne] at h
    · intro h
      subst h
      decide
  · intro h
    simp [MyLib.new, String.isEmpty_iff, h]

/-- C3 (witness): `MyLib.new_invalid_iff_empty` at the concrete config
`"default"`. -/
theorem MyLib.new_invalid_iff_empty_witness :
    MyLib.new "default" = Except.ok ⟨"default"⟩ :=
  (MyLib.new_invalid_iff_empty "default").2 (by decide)

/-- C4: `Calculator::divide` returns `Err("Division by zero")` if and only
if the divisor is zero, and for every non-zero divisor it returns `Ok` of
the rounded quotient — no validation beyond the non-zero-divisor check. -/
theorem Calculator.divide_error_iff_zero (c : Calculator) (a b : ℚ) :
    (c.divide a b = Except.error "Division by zero" ↔ b = 0) ∧
    (b ≠ 0 →
      c.divide a b = Except.ok ((roundAway (a / b * c.multiplier) : ℚ) / c.multiplier)) := by
  by_cases hb : b = 0 <;> simp [Calculator.divide, hb]

/-- C4 (witness): `Calculator.divide_error_iff_zero` at precision 2 with
operands 10 and 2. -/
theorem Calculator.divide_error_iff_zero_witness :
    Calculator.divide ⟨2⟩ 10 2 =
      Except.ok
        ((roundAway (10 / 2 * Calculator.multiplier ⟨2⟩) : ℚ) / Calculator.multiplier ⟨2⟩) :=
  (Calculator.divide_error_iff_zero ⟨2⟩ 10 2).2 (by norm_num)

/-- C5 (counterexample): with no `--output`, `App::run` on input file
content `"hi"` hands `"HI\n"` to stdout — `println!` appends a newline, so
what is written is not exactly the processed string `"HI"`. -/
theorem App.run_stdout_appends_newline :
    App.process (App.new ⟨"in.txt", none, "config.toml"⟩) "hi" = Except.ok "HI" ∧
    App.run (App.new ⟨"in.txt", none, "config.toml"⟩) (Except.ok "hi") =
      Except.ok (WriteEvent.toStdout "HI\n") ∧
    ("HI\n" : String) ≠ "HI" := by
  decide

/-- C5 (amended): for every string read from the input file, `App::process`
returns `Ok` of that string upper-cased, and `App::run` writes exactly the
processed string to the output file when `--output` is given; with no
`--output` it writes the processed string followed by a newline to
stdout. -/
theorem App.run_uppercases_and_writes (app : App) (content : String) :
    app.process content = Except.ok (rustToUppercase content) ∧
    (∀ path, app.config.output = some path →
      app.run (Except.ok content) = Except.ok (WriteEvent.toFile path (rustToUppercase content))) ∧
    (app.config.output = none →
      app.run (Except.ok content) =
        Except.ok (WriteEvent.toStdout (rustToUppercase content ++ "\n"))) := by
  have hproc : app.process content = Except.ok (rustToUppercase content) := by
    by_cases h : content = ""
    · subst h; rfl
    · simp [App.process, String.isEmpty_iff, h]
  refine ⟨hproc, ?_, ?_⟩
  · intro path hpath
    simp [App.run, hproc, App.write_output, hpath]
  · intro hnone
    simp [App.run, hproc, App.write_output, hnone]

/-- C5 (witness): `App.run_uppercases_and_writes` on the stdout
configuration with file content `"hi"`. -/
theorem App.run_uppercases_and_writes_witness :
    App.run (App.new ⟨"in.txt", none, "config.toml"⟩) (Except.ok "hi") =
      Except.ok (WriteEvent.toStdout (rustToUppercase "hi" ++ "\n")) :=
  (App.run_uppercases_and_writes (App.new ⟨"in.txt", none, "config.toml"⟩) "hi").2.2 rfl

/-- C6 (counterexample): at `v = 1073741824 = 2^30` (a non-negative `i32`),
`value * 2` overflows `i32`, so `async_operation` does not return
`Ok(2 * v) = Ok(2147483648)`: under wrapping semantics it returns
`Ok(-2147483648)` (and a debug build would panic instead). -/
theorem asyncOperation_overflows :
    asyncOperation 1073741824 ≠ Except.ok (2 * 1073741824) := by
  decide

/-- C6 (amended): for every non-negative `v` whose double stays within the
`i32` range, `async_operation(v)` returns `Ok(2 * v)`; in particular the
ten spawned concurrent operations on inputs 0..9 each yield twice their
input. -/
theorem asyncOperation_doubles :
    (∀ v : ℤ, 0 ≤ v → 2 * v ≤ 2147483647 → asyncOperation v = Except.ok (2 * v)) ∧
    concurrentResults =
      [Except.ok 0, Except.ok 2, Except.ok 4, Except.ok 6, Except.ok 8,
       Except.ok 10, Except.ok 12, Except.ok 14, Except.ok 16, Except.ok 18] := by
  constructor
  · intro v h0 h2
    have hlt : ¬ v < 0 := by omega
    simp only [asyncOperation, hlt, if_false, i32Wrap]
    congr 1
    omega
  · decide

/-- C6 (witness): `asyncOperation_doubles` at the concrete input 5. -/
theorem asyncOperation_doubles_witness : asyncOperation 5 = Except.ok (2 * 5) :=
  asyncOperation_doubles.1 5 (by decide) (by decide)

/-- C7: `LibError` has exactly the three variants `InvalidInput`,
`OperationFailed` and `Io` (every value is one of the three and the three
are mutually distinct), and both fallible library operations — `MyLib::new`
and `MyLib::process` — return their error through this one enum. -/
theorem LibError.three_variants :
    (∀ e : LibError,
      (∃ s, e = LibError.invalidInput s) ∨ (∃ s, e = LibError.operationFailed s) ∨
        (∃ io, e = LibError.ioWrapped io)) ∧
    (∀ s t, LibError.invalidInput s ≠ LibError.operationFailed t) ∧
    (∀ s e, LibError.invalidInput s ≠ LibError.ioWrapped e) ∧
    (∀ s e, LibError.operationFailed s ≠ LibError.ioWrapped e) ∧
    (∀ cfg, (∃ lib, MyLib.new cfg = Except.ok lib) ∨
      (∃ e : LibError, MyLib.new cfg = Except.error e)) ∧
    (∀ (lib : MyLib) (input : String), (∃ out, lib.process input = Except.ok out) ∨
      (∃ e : LibError, lib.process input = Except.error e)) := by
  refine ⟨?_, ?_, ?_, ?_, ?_, ?_⟩
  · intro e
    cases e with
    | invalidInput s => exact Or.inl ⟨s, rfl⟩
    | operationFailed s => exact Or.inr (Or.inl ⟨s, rfl⟩)
    | ioWrapped e => exact Or.inr (Or.inr ⟨e, rfl⟩)
  · intro s t h; cases h
  · intro s e h; cases h
  · intro s e h; cases h
  · intro cfg
    cases h : MyLib.new cfg with
    | ok lib => exact Or.inl ⟨lib, rfl⟩
    | error e => exact Or.inr ⟨e, rfl⟩
  · intro lib input
    cases h : lib.process input with
    | ok out => exact Or.inl ⟨out, rfl⟩
    | error e => exact Or.inr ⟨e, rfl⟩

/-- C8: the CLI argument set is exactly the four flags of `Args` (every
`Args` value is determined by its `input`, `output`, `verbose` and `config`
fields), `--config` defaults to `"config.toml"`, and `Config::from_args`
carries `input`, `output` and `config` over unchanged. -/
theorem Config.from_args_carries (args : Args) :
    (Config.from_args args).input = args.input ∧
    (Config.from_args args).output = args.output ∧
    (Config.from_args args).config_path = args.config ∧
    Args.configDefault = "config.toml" ∧
    args = ⟨args.input, args.output, args.verbose, args.config⟩ :=
  ⟨rfl, rfl, rfl, rfl, rfl⟩

/-- C9: `App::process` is total — it returns `Ok` on every input and
returns the empty string unchanged — so `App::run` can never fail at the
"Failed to process data" stage; by contrast `MyLib::process` rejects empty
input with `InvalidInput`. -/
theorem App.process_total (app : App) (s : String) :
    (app.process s).isOk = true ∧
    app.process "" = Except.ok "" ∧
    (∀ r msg, app.run r ≠ Except.error (Stage.processData, msg)) ∧
    (∀ lib : MyLib,
      lib.process "" = Except.error (LibError.invalidInput "input cannot be empty")) := by
  have hok : ∀ input : String, ∃ out, app.process input = Except.ok out := by
    intro input
    by_cases h : input = ""
    · subst h; exact ⟨"", rfl⟩
    · exact ⟨rustToUppercase input, by simp [App.process, String.isEmpty_iff, h]⟩
  refine ⟨?_, rfl, ?_, fun lib => rfl⟩
  · obtain ⟨out, ho⟩ := hok s
    rw [ho]; rfl
  · intro r msg hcontra
    cases r with
    | error e => simp [App.run] at hcontra
    | ok input =>
      obtain ⟨out, ho⟩ := hok input
      simp [App.run, ho] at hcontra

/-- C9 (witness): `App.process_total` applied on a concrete application at
the empty string. -/
theorem App.process_total_witness :
    App.process (App.new ⟨"in.txt", none, "config.toml"⟩) "" = Except.ok "" :=
  (App.process_total (App.new ⟨"in.txt", none, "config.toml"⟩) "").2.1

/-- C10: for every non-empty string `s`, `MyLib::new(s)` succeeds with an
instance whose `config()` is exactly `s`, and since `process` takes the
receiver immutably, the stored config survives any sequence of `process`
calls. -/
theorem MyLib.new_config_roundtrip (s : String) (h : s ≠ "") :
    MyLib.new s = Except.ok ⟨s⟩ ∧
    (⟨s⟩ : MyLib).config = s ∧
    (∀ inputs : List String,
      (inputs.foldl (fun lib i => (MyLib.processStep lib i).2) (⟨s⟩ : MyLib)).config = s) := by
  refine ⟨by simp [MyLib.new, String.isEmpty_iff, h], rfl, ?_⟩
  intro inputs
  have hfold : ∀ (l : List String) (lib : MyLib),
      l.foldl (fun lib i => (MyLib.processStep lib i).2) lib = lib := by
    intro l
    induction l with
    | nil => intro lib; rfl
    | cons x xs ih => intro lib; exact ih lib
  rw [hfold]

/-- C10 (witness): `MyLib.new_config_roundtrip` at the concrete config
`"cfg"`. -/
theorem MyLib.new_config_roundtrip_witness : MyLib.new "cfg" = Except.ok ⟨"cfg"⟩ :=
  (MyLib.new_config_roundtrip "cfg" (by decide)).1
